import Mathlib

/-!
Verification of the AI-Financial-News backend service (src/app.py).

The service is a FastAPI application gluing a news-search provider and a
generative-language provider.  The embedding below translates the pure
request/response processing of src/app.py into Lean:

* the two outbound HTTP calls are modelled as caller-supplied oracles
  (a function from the news query string to the provider's raw response,
  and a function from the prompt parts to the generation result), so a
  handler's independence from an oracle expresses "no outbound call";
* Python `None` / absent JSON fields become `Option`;
* Python truthiness tests (`if req.kata_kunci:` and friends) are
  translated by explicit helpers;
* `HTTPException(status_code, detail)` becomes an `Except` error value;
  the `detail` f-string carries the raw provider payload, which we keep
  structurally (Python renders the dict into the string);
* pydantic field validation (the `Field(..., ge=..., le=...)`
  declarations on the request models) is modelled by explicit validator
  functions applied before the handler body, which is how FastAPI runs
  them (a 422 response listing the violated fields, produced before the
  handler body and hence before any outbound call).
-/

/-- Python truthiness of an optional string (`None` and `""` are falsy). -/
def py_truthy_str : Option String → Bool
  | none => false
  | some s => if s = "" then false else true

/-- Python truthiness of an optional list (`None` and `[]` are falsy). -/
def py_truthy_list : Option (List String) → Bool
  | none => false
  | some l => if l = [] then false else true

/-- Python `x or '-'` for an optional string (`None` and `""` give the dash). -/
def py_or_dash_str : Option String → String
  | none => "-"
  | some s => if s = "" then "-" else s

/-- Python `x or '-'` for an optional integer (`None` and `0` give the dash). -/
def py_or_dash_int : Option Int → String
  | none => "-"
  | some n => if n = 0 then "-" else toString n

/-- Rendering of an optional string inside a Python f-string
(`None` renders as the text "None"). -/
def py_str : Option String → String
  | none => "None"
  | some s => s

/-- InvestorProfile (src/app.py lines 52-62): all fields optional;
`horizon_bulan` additionally carries a `ge=1` pydantic constraint,
enforced by the validators below. -/
structure InvestorProfile where
  risiko : Option String
  horizon_bulan : Option Int
  fokus : Option String
deriving DecidableEq

/-- AnalyzeRequest after pydantic validation (src/app.py lines 64-70):
`pertanyaan` required, `hari_kebelakang` defaulted to 7 and confined to
[1,30], `bahasa` defaulted to "id". -/
structure AnalyzeRequest where
  pertanyaan : String
  tickers : Option (List String)
  kata_kunci : Option String
  hari_kebelakang : Int
  bahasa : String
  profil : Option InvestorProfile
deriving DecidableEq

/-- NewsQuery after pydantic validation (src/app.py lines 72-77):
`q` required, `halaman` defaulted to 1 and confined to [1,5]. -/
structure NewsQuery where
  q : String
  dari : Option String
  sampai : Option String
  bahasa : String
  halaman : Int
deriving DecidableEq

/-- The JSON body of an /analyze request before validation: every field
may be absent. -/
structure RawAnalyzeRequest where
  pertanyaan : Option String
  tickers : Option (List String)
  kata_kunci : Option String
  hari_kebelakang : Option Int
  bahasa : Option String
  profil : Option InvestorProfile
deriving DecidableEq

/-- The JSON body of a /news request before validation. -/
structure RawNewsQuery where
  q : Option String
  dari : Option String
  sampai : Option String
  bahasa : Option String
  halaman : Option Int
deriving DecidableEq

/-- The normalized article record produced by fetch_news
(src/app.py lines 101-110): dict keys judul/sumber/url/publishedAt/ringkas,
each value possibly Python `None`. -/
structure NewsArticle where
  judul : Option String
  sumber : Option String
  url : Option String
  publishedAt : Option String
  ringkas : Option String
deriving DecidableEq

/-- The `source` sub-object of a provider article; its `name` key may be
absent. -/
structure RawSource where
  name : Option String
deriving DecidableEq

/-- A provider article object: dynamic JSON, every field may be absent
(the spec directs modelling each field as an optional value). -/
structure RawArticle where
  title : Option String
  source : Option RawSource
  url : Option String
  publishedAt : Option String
  description : Option String
deriving DecidableEq

/-- The news provider's raw response payload: a `status` indicator, a
total-result count and a list of articles, each possibly absent. -/
structure RawResponse where
  status : Option String
  totalResults : Option Int
  articles : Option (List RawArticle)
deriving DecidableEq

/-- The detail attached to an HTTPException.  In src/app.py the detail is
an f-string; for a news failure it embeds the provider's raw response
dict (`f"Gagal memuat berita: {res}"`), which we keep structurally, and
for a generation failure it is the message string
(`f"Gagal memanggil Gemini: {e}"`). -/
inductive ErrorDetail where
  | newsFailure : RawResponse → ErrorDetail
  | genFailure : String → ErrorDetail
  | validation : List String → ErrorDetail
deriving DecidableEq

/-- HTTPException as raised by the handlers (status code plus detail);
validation rejections are FastAPI 422 responses naming the violated
fields. -/
structure HttpError where
  status_code : Nat
  detail : ErrorDetail
deriving DecidableEq

/-- The JSON object returned by POST /analyze (src/app.py lines 195-201). -/
structure AnalyzeResponse where
  query : String
  news_query : String
  articles_count : Nat
  answer : String
  disclaimer : String
deriving DecidableEq

/-- The JSON object returned by POST /news (src/app.py line 236). -/
structure NewsOut where
  total : Int
  articles : List NewsArticle
deriving DecidableEq

/-- The JSON object returned by GET /suggest-questions (src/app.py line 253). -/
structure SuggestOut where
  suggestions : List String
deriving DecidableEq

/-- Normalization of one provider article (src/app.py lines 102-108 and
227-233): `a.get("title")`, `a.get("source", {}).get("name")`,
`a.get("url")`, `a.get("publishedAt")`, `a.get("description")`. -/
def normalize_article (a : RawArticle) : NewsArticle :=
  { judul := a.title
    sumber := (a.source.getD { name := none }).name
    url := a.url
    publishedAt := a.publishedAt
    ringkas := a.description }

/-- fetch_news (src/app.py lines 85-110), response processing.  The
outbound `newsapi.get_everything` call is modelled by handing the
function the provider's raw response; the date range, language, sort
order and page size only shape the outbound request, not this
processing.  A non-"ok" status raises HTTPException 502 whose detail
carries the raw payload; otherwise each article is normalized. -/
def fetch_news (res : RawResponse) : Except HttpError (List NewsArticle) :=
  if res.status ≠ some "ok" then
    .error { status_code := 502, detail := .newsFailure res }
  else
    .ok ((res.articles.getD []).map normalize_article)

/-- The enumerated line for one article (src/app.py lines 119-121):
the f-string inside the `for i, a in enumerate(articles, 1)` loop.
`a["judul"]`, `a["url"]`, `a["sumber"]` and `when = a.get("publishedAt", "")`
render Python `None` as "None"; the summary uses `a.get("ringkas") or '-'`. -/
def article_line (i : Nat) (a : NewsArticle) : String :=
  toString i ++ ". [" ++ py_str a.judul ++ "](" ++ py_str a.url ++ ") — " ++
    py_str a.sumber ++ " — " ++ py_str a.publishedAt ++
    "\n   Ringkas: " ++ py_or_dash_str a.ringkas

/-- The `enumerate(articles, 1)` loop body of build_news_context:
one formatted line per article, numbered from `i`. -/
def number_lines : Nat → List NewsArticle → List String
  | _, [] => []
  | i, a :: rest => article_line i a :: number_lines (i + 1) rest

/-- build_news_context (src/app.py lines 113-122): the fixed sentence on
an empty list, otherwise a header line plus one enumerated line per
article, joined by newlines. -/
def build_news_context (articles : List NewsArticle) : String :=
  match articles with
  | [] => "Tidak ada artikel relevan yang ditemukan dalam jangka waktu yang ditentukan."
  | _ => String.intercalate "\n"
      ("Artikel Berita Terkait (ringkasan singkat):" :: number_lines 1 articles)

/-- The profile segment of the prompt (src/app.py lines 129-138). -/
def profile_text (p : InvestorProfile) : String :=
  "Profil Investor:\n" ++
    "- Risiko: " ++ py_or_dash_str p.risiko ++ "\n" ++
    "- Horizon (bulan): " ++ py_or_dash_int p.horizon_bulan ++ "\n" ++
    "- Fokus: " ++ py_or_dash_str p.fokus ++ "\n"

/-- The fixed instruction segment of the prompt (src/app.py lines 140-149). -/
def tugas_text : String :=
  "Tugas:\n" ++
    "- Jawab pertanyaan pengguna di bawah ini.\n" ++
    "- Gunakan konteks berita di atas jika relevan.\n" ++
    "- Sertakan langkah analisis ringkas, poin risiko, dan opsi alternatif.\n" ++
    "- Akhiri dengan ringkasan eksekutif (3–5 poin bullet).\n" ++
    "- Tambahkan penafian singkat bahwa ini bukan nasihat keuangan personal.\n"

/-- build_prompt (src/app.py lines 125-151): the ordered list of the
`text` values of the content parts.  The profile part is appended only
when a profile is given (`if profile:` — a pydantic model instance is
always truthy, so this is a None-test), then always the news context,
the instruction block and finally the question segment. -/
def build_prompt (user_q : String) (profile : Option InvestorProfile)
    (news_ctx : String) : List String :=
  let parts : List String := []
  let parts := match profile with
    | some p => parts ++ [profile_text p]
    | none => parts
  let parts := parts ++ [news_ctx]
  let parts := parts ++ [tugas_text]
  let parts := parts ++ ["Pertanyaan Pengguna: " ++ user_q]
  parts

/-- The news-query assembly of the /analyze handler
(src/app.py lines 171-180): start from the keyword when truthy, extend
with the tickers when truthy, fall back to the fixed general-market term
when nothing accumulated, then join with " OR ". -/
def analyze_news_query (kata_kunci : Option String)
    (tickers : Option (List String)) : String :=
  let terms : List String := []
  let terms := if py_truthy_str kata_kunci then terms ++ [kata_kunci.getD ""] else terms
  let terms := if py_truthy_list tickers then terms ++ tickers.getD [] else terms
  let terms := if terms = [] then ["ekonomi OR pasar saham OR IHSG"] else terms
  String.intercalate " OR " terms

/-- The /analyze handler body after validation (src/app.py lines 168-201).
`news_res` is the news-provider oracle, consulted at the assembled query
string; `gen` is the generation oracle, consulted at the prompt parts
(an `Except.error` models `model.generate_content`/`resp.text` raising). -/
def analyze (req : AnalyzeRequest) (news_res : String → RawResponse)
    (gen : List String → Except String String) : Except HttpError AnalyzeResponse :=
  let q := analyze_news_query req.kata_kunci req.tickers
  match fetch_news (news_res q) with
  | .error e => .error e
  | .ok articles =>
    let news_ctx := build_news_context articles
    let parts := build_prompt req.pertanyaan req.profil news_ctx
    match gen parts with
    | .error e =>
      .error { status_code := 500, detail := .genFailure ("Gagal memanggil Gemini: " ++ e) }
    | .ok teks =>
      .ok { query := req.pertanyaan
            news_query := q
            articles_count := articles.length
            answer := teks
            disclaimer := "Konten untuk tujuan edukasi. Lakukan riset mandiri & konsultasi penasihat berizin." }

/-- The /news handler body after validation (src/app.py lines 204-236):
the same non-"ok" check and article normalization as fetch_news, with
the provider response handed in as the oracle's answer.  The from/to
parameters are passed through to the provider only and do not affect
this processing. -/
def news (query : NewsQuery) (res : RawResponse) : Except HttpError NewsOut :=
  if res.status ≠ some "ok" then
    .error { status_code := 502, detail := .newsFailure res }
  else
    .ok { total := res.totalResults.getD 0
          articles := (res.articles.getD []).map normalize_article }

/-- Python `teks.split("\n")` on the character list: split at every
newline, keeping empty groups, so the result is never empty. -/
def split_nl_chars : List Char → List (List Char)
  | [] => [[]]
  | c :: rest =>
    match split_nl_chars rest with
    | [] => [[]]
    | grp :: groups =>
      if c = '\n' then [] :: grp :: groups else (c :: grp) :: groups

/-- Python `teks.split("\n")`. -/
def py_split_newlines (s : String) : List String :=
  (split_nl_chars s.toList).map List.asString

/-- The Python whitespace characters stripped by `str.strip()`. -/
def py_space_chars : List Char := [' ', '\t', '\n', '\r', '\x0B', '\x0C']

/-- The characters stripped by `s.strip("- •\n ")` in /suggest-questions. -/
def bullet_strip_chars : List Char := ['-', ' ', '•', '\n']

/-- Python `s.strip(chars)`: remove the characters of `chars` from both
ends of the string. -/
def py_strip_chars (chars : List Char) (s : String) : String :=
  List.asString (((s.toList.dropWhile (fun c => chars.contains c)).reverse.dropWhile
    (fun c => chars.contains c)).reverse)

/-- The list comprehension of /suggest-questions (src/app.py line 253):
`[s.strip("- •\n ") for s in teks.split("\n") if s.strip()]`. -/
def split_suggestions (teks : String) : List String :=
  ((py_split_newlines teks).filter (fun s => py_strip_chars py_space_chars s != "")).map
    (fun s => py_strip_chars bullet_strip_chars s)

/-- Modelled from the claim's words, for comparison with the code's
`split_suggestions`: split on newlines, remove whitespace-only lines,
and strip only LEADING "-", "•" and space characters from each
remaining line. -/
def claim_described_suggestions (teks : String) : List String :=
  ((py_split_newlines teks).filter (fun s => py_strip_chars py_space_chars s != "")).map
    (fun s => List.asString (s.toList.dropWhile (fun c => ['-', '•', ' '].contains c)))

/-- The prompt assembled by /suggest-questions (src/app.py lines 241-246);
the focus clause is appended only for a truthy `topik`. -/
def suggest_prompt (topik : Option String) : String :=
  let prompt := "Buat 8 pertanyaan tajam seputar keuangan/investasi untuk membantu analisis. Variasikan dari makro, sektor, emiten, manajemen risiko, dan perencanaan keuangan. "
  if py_truthy_str topik then prompt ++ "Fokus utama: " ++ topik.getD "" ++ ". " else prompt

/-- The /suggest-questions handler (src/app.py lines 239-253); `gen` is
the generation oracle taking the plain-string prompt. -/
def suggest_questions (topik : Option String)
    (gen : String → Except String String) : Except HttpError SuggestOut :=
  match gen (suggest_prompt topik) with
  | .error e =>
    .error { status_code := 500, detail := .genFailure ("Gagal memanggil Gemini: " ++ e) }
  | .ok teks => .ok { suggestions := split_suggestions teks }

/-- Pydantic validation of an /analyze body, as declared by the Field
constraints of AnalyzeRequest and InvestorProfile (src/app.py lines
52-70): `pertanyaan` required, `hari_kebelakang` in [1,30] with default
7, `profil.horizon_bulan ≥ 1` when given, `bahasa` default "id".
FastAPI rejects a violation with a 422 response naming the violated
fields, before the handler body runs. -/
def validate_analyze (raw : RawAnalyzeRequest) : Except HttpError AnalyzeRequest :=
  let errs : List String :=
    (if raw.pertanyaan = none then ["pertanyaan"] else []) ++
    (match raw.hari_kebelakang with
      | some h => if 1 ≤ h ∧ h ≤ 30 then [] else ["hari_kebelakang"]
      | none => []) ++
    (match raw.profil with
      | some p =>
        match p.horizon_bulan with
        | some h => if h < 1 then ["profil.horizon_bulan"] else []
        | none => []
      | none => [])
  if errs = [] then
    .ok { pertanyaan := raw.pertanyaan.getD ""
          tickers := raw.tickers
          kata_kunci := raw.kata_kunci
          hari_kebelakang := raw.hari_kebelakang.getD 7
          bahasa := raw.bahasa.getD "id"
          profil := raw.profil }
  else .error { status_code := 422, detail := .validation errs }

/-- Pydantic validation of a /news body, as declared by the Field
constraints of NewsQuery (src/app.py lines 72-77): `q` required,
`halaman` in [1,5] with default 1, `bahasa` default "id". -/
def validate_news (raw : RawNewsQuery) : Except HttpError NewsQuery :=
  let errs : List String :=
    (if raw.q = none then ["q"] else []) ++
    (match raw.halaman with
      | some p => if 1 ≤ p ∧ p ≤ 5 then [] else ["halaman"]
      | none => [])
  if errs = [] then
    .ok { q := raw.q.getD ""
          dari := raw.dari
          sampai := raw.sampai
          bahasa := raw.bahasa.getD "id"
          halaman := raw.halaman.getD 1 }
  else .error { status_code := 422, detail := .validation errs }

/-- POST /analyze end to end: pydantic validation, then the handler body. -/
def handle_analyze (raw : RawAnalyzeRequest) (news_res : String → RawResponse)
    (gen : List String → Except String String) : Except HttpError AnalyzeResponse :=
  match validate_analyze raw with
  | .error e => .error e
  | .ok req => analyze req news_res gen

/-- POST /news end to end: pydantic validation, then the handler body. -/
def handle_news (raw : RawNewsQuery) (res : RawResponse) : Except HttpError NewsOut :=
  match validate_news raw with
  | .error e => .error e
  | .ok nq => news nq res

/-- A provider response with an "ok" status and one article with every
optional field absent, used as a concrete input below. -/
def sample_ok_res : RawResponse :=
  { status := some "ok"
    totalResults := some 1
    articles := some [{ title := none, source := none, url := none, publishedAt := none, description := none }] }

/-- A provider response with a non-"ok" status, used as a concrete input
below. -/
def sample_bad_res : RawResponse :=
  { status := some "error", totalResults := none, articles := none }

/-- A validated /analyze request, used as a concrete input below. -/
def sample_req : AnalyzeRequest :=
  { pertanyaan := "Bagaimana prospek IHSG?"
    tickers := some ["BBCA"]
    kata_kunci := some "inflasi"
    hari_kebelakang := 7
    bahasa := "id"
    profil := none }

/-- A validated /news query, used as a concrete input below. -/
def sample_news_query : NewsQuery :=
  { q := "IHSG", dari := none, sampai := none, bahasa := "id", halaman := 1 }

/-- An /analyze body whose lookback lies outside [1,30], used as a
concrete input below. -/
def sample_bad_analyze : RawAnalyzeRequest :=
  { pertanyaan := some "Apa dampak inflasi?"
    tickers := none
    kata_kunci := none
    hari_kebelakang := some 0
    bahasa := none
    profil := none }

/-- A /news body whose page lies outside [1,5], used as a concrete input
below. -/
def sample_bad_newsq : RawNewsQuery :=
  { q := some "IHSG", dari := none, sampai := none, bahasa := none, halaman := some 9 }

/-- An /analyze body whose question is present but equal to the empty
string, used as a concrete input below. -/
def sample_empty_q : RawAnalyzeRequest :=
  { pertanyaan := some ""
    tickers := none
    kata_kunci := none
    hari_kebelakang := none
    bahasa := none
    profil := none }

/-- An /analyze body with no question at all, used as a concrete input
below. -/
def sample_no_q : RawAnalyzeRequest :=
  { pertanyaan := none
    tickers := none
    kata_kunci := none
    hari_kebelakang := some 7
    bahasa := none
    profil := none }

/-- A generation oracle answering a fixed bulleted two-line text, used
as a concrete input below. -/
def sample_gen : String → Except String String :=
  fun _ => Except.ok "- a\n\n• b"

/-- Helper for the news-context shape: the enumerate loop equals a
zipWith against the 1-based index range. -/
theorem number_lines_eq_zipWith (i : Nat) (l : List NewsArticle) :
    number_lines i l = List.zipWith article_line (List.range' i l.length) l := by
  induction l generalizing i with
  | nil => rfl
  | cons a rest ih => simp [number_lines, List.range'_succ, ih]

/-- C1: for an /analyze request whose keyword is given (non-empty) and
whose ticker list is given, the news query passed to the news fetch is
the keyword followed by the tickers in list order, joined by " OR ".
(`analyze` hands exactly `analyze_news_query req.kata_kunci req.tickers`
to the news oracle.) -/
theorem analyze_news_query_keyword_then_tickers
    (k : String) (ts : List String) (hk : k ≠ "") :
    analyze_news_query (some k) (some ts) = String.intercalate " OR " (k :: ts) := by
  simp only [analyze_news_query, py_truthy_str, py_truthy_list, Option.getD]
  rw [if_neg hk]
  by_cases hts : ts = []
  · subst hts; simp
  · rw [if_neg hts]
    simp

theorem analyze_news_query_keyword_then_tickers_witness :
    ("inflasi" : String) ≠ "" ∧
      analyze_news_query (some "inflasi") (some ["BBCA", "TLKM"]) = "inflasi OR BBCA OR TLKM" :=
  ⟨by decide,
    (analyze_news_query_keyword_then_tickers "inflasi" ["BBCA", "TLKM"] (by decide)).trans
      (by decide)⟩

/-- C2: for an /analyze request with neither keyword nor tickers, the
news query passed to the news fetch is the fixed fallback string. -/
theorem analyze_news_query_fallback :
    analyze_news_query none none = "ekonomi OR pasar saham OR IHSG" := rfl

/-- C10: an empty-string keyword and an empty ticker list behave exactly
like absent fields in the news-query assembly; in particular every
combination of empty/absent keyword and empty/absent tickers yields the
fixed fallback query. -/
theorem analyze_news_query_empty_as_absent :
    (∀ ts : Option (List String), analyze_news_query (some "") ts = analyze_news_query none ts) ∧
    (∀ kk : Option String, analyze_news_query kk (some []) = analyze_news_query kk none) ∧
    analyze_news_query (some "") (some []) = "ekonomi OR pasar saham OR IHSG" ∧
    analyze_news_query (some "") none = "ekonomi OR pasar saham OR IHSG" ∧
    analyze_news_query none (some []) = "ekonomi OR pasar saham OR IHSG" :=
  ⟨fun _ => rfl, fun _ => rfl, rfl, rfl, rfl⟩

/-- C3: build_prompt emits its segments in the fixed order profile
(present exactly when a profile was given), news context, instruction
block, question; the last segment is always the question segment. -/
theorem build_prompt_order_and_last
    (user_q : String) (profile : Option InvestorProfile) (news_ctx : String) :
    build_prompt user_q profile news_ctx =
      (match profile with | some p => [profile_text p] | none => []) ++
        [news_ctx, tugas_text, "Pertanyaan Pengguna: " ++ user_q] ∧
    (build_prompt user_q profile news_ctx).getLast? =
      some ("Pertanyaan Pengguna: " ++ user_q) := by
  cases profile <;> exact ⟨rfl, rfl⟩

/-- C4: build_news_context of the empty list is exactly the fixed
"no relevant articles" sentence; on a non-empty list it is the header
line followed by one line per article in input order, numbered from 1,
each line being the bracketed title/url/source/date format with the
indented summary (description or "-"), all joined by newlines. -/
theorem build_news_context_shape :
    build_news_context [] =
      "Tidak ada artikel relevan yang ditemukan dalam jangka waktu yang ditentukan." ∧
    ∀ (a : NewsArticle) (rest : List NewsArticle),
      build_news_context (a :: rest) =
        String.intercalate "\n"
          ("Artikel Berita Terkait (ringkasan singkat):" ::
            List.zipWith article_line (List.range' 1 (a :: rest).length) (a :: rest)) := by
  refine ⟨rfl, fun a rest => ?_⟩
  show String.intercalate "\n"
      ("Artikel Berita Terkait (ringkasan singkat):" :: number_lines 1 (a :: rest)) = _
  rw [number_lines_eq_zipWith]

/-- C5: on an "ok" provider status the news fetch succeeds and is the
total, pointwise normalization of the (possibly absent) article list;
each normalized field is exactly the corresponding optional provider
field, so a missing provider field becomes an absent value and the
normalization never fails. -/
theorem fetch_news_normalizes_total (res : RawResponse) (hok : res.status = some "ok") :
    fetch_news res = .ok ((res.articles.getD []).map normalize_article) ∧
    ∀ a : RawArticle,
      normalize_article a =
        { judul := a.title
          sumber := a.source.bind (fun s => s.name)
          url := a.url
          publishedAt := a.publishedAt
          ringkas := a.description } := by
  constructor
  · unfold fetch_news
    rw [if_neg (by simp [hok])]
  · intro a
    cases h : a.source <;> simp [normalize_article, h]

theorem fetch_news_normalizes_total_witness :
    sample_ok_res.status = some "ok" ∧
      fetch_news sample_ok_res =
        .ok [{ judul := none, sumber := none, url := none, publishedAt := none, ringkas := none }] :=
  ⟨rfl, (fetch_news_normalizes_total sample_ok_res rfl).1⟩

/-- C6: when the provider status differs from "ok", /analyze answers the
502 error carrying the provider's raw payload and its result does not
depend on the generation oracle (no generation call), and /news answers
the same 502 error. -/
theorem news_bad_status_502 :
    (∀ (req : AnalyzeRequest) (news_res : String → RawResponse)
        (gen1 gen2 : List String → Except String String),
      (news_res (analyze_news_query req.kata_kunci req.tickers)).status ≠ some "ok" →
        analyze req news_res gen1 =
          .error { status_code := 502,
                   detail := .newsFailure (news_res (analyze_news_query req.kata_kunci req.tickers)) } ∧
        analyze req news_res gen1 = analyze req news_res gen2) ∧
    (∀ (nq : NewsQuery) (res : RawResponse),
      res.status ≠ some "ok" →
        news nq res = .error { status_code := 502, detail := .newsFailure res }) := by
  constructor
  · intro req news_res gen1 gen2 hbad
    have hf : fetch_news (news_res (analyze_news_query req.kata_kunci req.tickers)) =
        .error { status_code := 502,
                 detail := .newsFailure (news_res (analyze_news_query req.kata_kunci req.tickers)) } := by
      unfold fetch_news
      rw [if_pos hbad]
    constructor
    · simp only [analyze, hf]
    · simp only [analyze, hf]
  · intro nq res hbad
    unfold news
    rw [if_pos hbad]

theorem news_bad_status_502_witness :
    sample_bad_res.status ≠ some "ok" ∧
      analyze sample_req (fun _ => sample_bad_res) (fun _ => .ok "jawaban") =
        .error { status_code := 502, detail := .newsFailure sample_bad_res } ∧
      news sample_news_query sample_bad_res =
        .error { status_code := 502, detail := .newsFailure sample_bad_res } :=
  ⟨by decide,
    (news_bad_status_502.1 sample_req (fun _ => sample_bad_res)
      (fun _ => .ok "jawaban") (fun _ => .error "x") (by decide)).1,
    news_bad_status_502.2 sample_news_query sample_bad_res (by decide)⟩

/-- C7: an /analyze body whose lookback lies outside [1,30] and a /news
body whose page lies outside [1,5] are rejected with a 422 validation
error; the outcome is independent of both provider oracles, so no
outbound call can influence (or be required for) the response. -/
theorem out_of_range_rejected :
    (∀ (raw : RawAnalyzeRequest) (n1 n2 : String → RawResponse)
        (g1 g2 : List String → Except String String) (h : Int),
      raw.hari_kebelakang = some h → (h < 1 ∨ 30 < h) →
        handle_analyze raw n1 g1 = handle_analyze raw n2 g2 ∧
        ∃ fields, handle_analyze raw n1 g1 =
          .error { status_code := 422, detail := .validation fields }) ∧
    (∀ (raw : RawNewsQuery) (r1 r2 : RawResponse) (p : Int),
      raw.halaman = some p → (p < 1 ∨ 5 < p) →
        handle_news raw r1 = handle_news raw r2 ∧
        ∃ fields, handle_news raw r1 =
          .error { status_code := 422, detail := .validation fields }) := by
  constructor
  · intro raw n1 n2 g1 g2 h hh hr
    have hcond : ¬(1 ≤ h ∧ h ≤ 30) := by omega
    obtain ⟨fields, hval⟩ :
        ∃ fields, validate_analyze raw =
          .error { status_code := 422, detail := .validation fields } := by
      simp only [validate_analyze, hh, hcond, if_false]
      rw [if_neg (by simp)]
      exact ⟨_, rfl⟩
    refine ⟨?_, fields, ?_⟩ <;> simp only [handle_analyze, hval]
  · intro raw r1 r2 p hp hr
    have hcond : ¬(1 ≤ p ∧ p ≤ 5) := by omega
    obtain ⟨fields, hval⟩ :
        ∃ fields, validate_news raw =
          .error { status_code := 422, detail := .validation fields } := by
      simp only [validate_news, hp, hcond, if_false]
      rw [if_neg (by simp)]
      exact ⟨_, rfl⟩
    refine ⟨?_, fields, ?_⟩ <;> simp only [handle_news, hval]

theorem out_of_range_rejected_witness :
    (sample_bad_analyze.hari_kebelakang = some 0 ∧ ((0 : Int) < 1 ∨ 30 < (0 : Int)) ∧
      handle_analyze sample_bad_analyze (fun _ => sample_ok_res) (fun _ => .ok "jawaban") =
        handle_analyze sample_bad_analyze (fun _ => sample_bad_res) (fun _ => .error "x") ∧
      ∃ fields, handle_analyze sample_bad_analyze (fun _ => sample_ok_res) (fun _ => .ok "jawaban") =
        .error { status_code := 422, detail := .validation fields }) ∧
    (sample_bad_newsq.halaman = some 9 ∧ ((9 : Int) < 1 ∨ 5 < (9 : Int)) ∧
      handle_news sample_bad_newsq sample_ok_res = handle_news sample_bad_newsq sample_bad_res ∧
      ∃ fields, handle_news sample_bad_newsq sample_ok_res =
        .error { status_code := 422, detail := .validation fields }) :=
  ⟨⟨rfl, by decide,
      (out_of_range_rejected.1 sample_bad_analyze (fun _ => sample_ok_res)
        (fun _ => sample_bad_res) (fun _ => .ok "jawaban") (fun _ => .error "x")
        0 rfl (by decide)).1,
      (out_of_range_rejected.1 sample_bad_analyze (fun _ => sample_ok_res)
        (fun _ => sample_bad_res) (fun _ => .ok "jawaban") (fun _ => .error "x")
        0 rfl (by decide)).2⟩,
    ⟨rfl, by decide,
      (out_of_range_rejected.2 sample_bad_newsq sample_ok_res sample_bad_res
        9 rfl (by decide)).1,
      (out_of_range_rejected.2 sample_bad_newsq sample_ok_res sample_bad_res
        9 rfl (by decide)).2⟩⟩

/-- C8 counterexample: a request whose question is present but equal to
the empty string is NOT rejected — pydantic declares `pertanyaan` as a
required plain string without a length constraint, so validation accepts
the empty string and the handler proceeds through both external calls to
a full success response. -/
theorem empty_question_accepted :
    validate_analyze sample_empty_q =
      .ok { pertanyaan := "", tickers := none, kata_kunci := none,
            hari_kebelakang := 7, bahasa := "id", profil := none } ∧
    handle_analyze sample_empty_q (fun _ => sample_ok_res) (fun _ => .ok "jawaban") =
      .ok { query := "", news_query := "ekonomi OR pasar saham OR IHSG",
            articles_count := 1, answer := "jawaban",
            disclaimer := "Konten untuk tujuan edukasi. Lakukan riset mandiri & konsultasi penasihat berizin." } :=
  ⟨rfl, rfl⟩

/-- C8 amended: `pertanyaan` is required — a body without it is rejected
with a 422 validation error independently of both provider oracles
(before any external call); a present empty-string question, however, is
accepted. -/
theorem missing_question_rejected
    (raw : RawAnalyzeRequest) (n1 n2 : String → RawResponse)
    (g1 g2 : List String → Except String String) (hq : raw.pertanyaan = none) :
    handle_analyze raw n1 g1 = handle_analyze raw n2 g2 ∧
    ∃ fields, handle_analyze raw n1 g1 =
      .error { status_code := 422, detail := .validation fields } := by
  obtain ⟨fields, hval⟩ :
      ∃ fields, validate_analyze raw =
        .error { status_code := 422, detail := .validation fields } := by
    simp only [validate_analyze, hq, if_true]
    rw [if_neg (by simp)]
    exact ⟨_, rfl⟩
  refine ⟨?_, fields, ?_⟩ <;> simp only [handle_analyze, hval]

theorem missing_question_rejected_witness :
    sample_no_q.pertanyaan = none ∧
      handle_analyze sample_no_q (fun _ => sample_ok_res) (fun _ => .ok "jawaban") =
        handle_analyze sample_no_q (fun _ => sample_bad_res) (fun _ => .error "x") ∧
      ∃ fields, handle_analyze sample_no_q (fun _ => sample_ok_res) (fun _ => .ok "jawaban") =
        .error { status_code := 422, detail := .validation fields } :=
  ⟨rfl,
    (missing_question_rejected sample_no_q (fun _ => sample_ok_res)
      (fun _ => sample_bad_res) (fun _ => .ok "jawaban") (fun _ => .error "x") rfl).1,
    (missing_question_rejected sample_no_q (fun _ => sample_ok_res)
      (fun _ => sample_bad_res) (fun _ => .ok "jawaban") (fun _ => .error "x") rfl).2⟩

/-- Helper: stripping a character set from both ends yields the empty
string exactly when every character of the string belongs to the set. -/
theorem py_strip_chars_eq_empty_iff (chars : List Char) (s : String) :
    py_strip_chars chars s = "" ↔ ∀ c ∈ s.toList, chars.contains c := by
  unfold py_strip_chars
  constructor
  · intro h c hc
    have hlist : ((s.toList.dropWhile (fun c => chars.contains c)).reverse.dropWhile
        (fun c => chars.contains c)).reverse = [] := by
      have := congrArg String.toList h
      simpa [List.asString] using this
    rw [List.reverse_eq_nil_iff, List.dropWhile_eq_nil_iff] at hlist
    have hdrop : ∀ x ∈ s.toList.dropWhile (fun c => chars.contains c), chars.contains x := by
      intro x hx
      exact hlist x (List.mem_reverse.mpr hx)
    rcases List.mem_append.mp
        ((List.takeWhile_append_dropWhile (l := s.toList) (p := fun c => chars.contains c)) ▸ hc) with
      htk | hdk
    · exact List.mem_takeWhile_imp htk
    · exact hdrop c hdk
  · intro h
    have hnil : s.toList.dropWhile (fun c => chars.contains c) = [] :=
      List.dropWhile_eq_nil_iff.mpr h
    rw [hnil]
    rfl

/-- Helper: the non-blank test of the comprehension, as an existence of a
non-set character. -/
theorem py_strip_bne_any (chars : List Char) (s : String) :
    (py_strip_chars chars s != "") = s.toList.any (fun c => !chars.contains c) := by
  cases hany : s.toList.any (fun c => !chars.contains c) with
  | false =>
    have hall : ∀ c ∈ s.toList, chars.contains c := by
      intro c hc
      have := List.any_eq_false.mp hany c hc
      simpa using this
    rw [(py_strip_chars_eq_empty_iff chars s).mpr hall]
    rfl
  | true =>
    obtain ⟨c, hc, hpc⟩ := List.any_eq_true.mp hany
    have hne : py_strip_chars chars s ≠ "" := by
      intro h
      have := (py_strip_chars_eq_empty_iff chars s).mp h c hc
      simp at hpc
      exact hpc (by simpa using this)
    simpa using hne

/-- C9 counterexample: for the model text "-" (a line consisting of a
single dash) the suggestions list is [""] — the empty string IS an
element, contrary to the claim; and for the model text "- a -" the code
strips the TRAILING dash too ("a"), while the claim's leading-only
stripping would keep it ("a -"). -/
theorem suggestions_counterexample :
    split_suggestions "-" = [""] ∧
    split_suggestions "- a -" = ["a"] ∧
    claim_described_suggestions "- a -" = ["a -"] ∧
    split_suggestions "- a -" ≠ claim_described_suggestions "- a -" :=
  ⟨by decide, by decide, by decide, by decide⟩

/-- C9 amended: for every text the model returns to /suggest-questions,
the endpoint answers the list obtained by splitting the text on
newlines, removing the whitespace-only lines, and stripping the
characters "-", "•", space and newline from BOTH ends of each remaining
line (Python `str.strip` strips both edges); a kept line made only of
such non-whitespace bullet characters therefore yields an empty-string
element. -/
theorem suggest_questions_split_shape (topik : Option String)
    (gen : String → Except String String) (teks : String)
    (hg : gen (suggest_prompt topik) = .ok teks) :
    suggest_questions topik gen = .ok { suggestions := split_suggestions teks } ∧
    split_suggestions teks =
      ((py_split_newlines teks).filter
          (fun s => s.toList.any (fun c => !py_space_chars.contains c))).map
        (fun s => py_strip_chars bullet_strip_chars s) := by
  constructor
  · simp only [suggest_questions, hg]
  · unfold split_suggestions
    congr 1
    exact List.filter_congr (fun s _ => py_strip_bne_any py_space_chars s)

theorem suggest_questions_split_shape_witness :
    sample_gen (suggest_prompt none) = .ok "- a\n\n• b" ∧
      suggest_questions none sample_gen = .ok { suggestions := ["a", "b"] } :=
  ⟨rfl,
    (suggest_questions_split_shape none sample_gen "- a\n\n• b" rfl).1.trans
      (congrArg
        (fun l : List String => (Except.ok { suggestions := l } : Except HttpError SuggestOut))
        (by decide : split_suggestions "- a\n\n• b" = ["a", "b"]))⟩
